import Mathlib

/-!
Verification of the Maestro API client (src/maestro_client/maestro_client.py).

The client is embedded shallowly:

* Python strings stay `String`; Python `str.startswith` and the substring
  operator `in` are modelled on the underlying character lists.
* Decoded JSON objects are modelled as string-to-string association lists,
  which covers every field the client reads (accessToken, organizationLabel).
* Timestamps (`time.time()`) are integers (seconds); every quantity the code
  compares — expiry, skew, the 3600-second window — is a whole number of
  seconds.  Time is modelled as constant within a single client call; the
  call's current time is an explicit input.
* The client's mutable fields (`_token`, `_organization`, `_token_expires_at`,
  and the `threading.Lock`) form an explicit `ClientState`.  A
  `threading.Lock` is not reentrant: acquiring it while the same thread
  already holds it blocks forever.  Under the sequential execution considered
  here this is a guaranteed deadlock, modelled by the `Outcome.deadlock`
  result (state frozen at the blocking point, lock left held).
* Network I/O is an environment `Env` supplying the login response and the
  responses to successive dispatches.  Each operation also returns a trace of
  observable events: login calls, HTTP dispatches, and session writes (each
  session write records whether the lock was held at the moment of writing).
* Exceptions (`MaestroClientError`) become the `Outcome.authError` variant
  carrying the same diagnostic payload the Python message interpolates.
-/

namespace MaestroSpec

/-- Python `str.startswith`, modelled on the character list. -/
def startswith (s p : String) : Bool := p.toList.isPrefixOf s.toList

/-- Python substring containment (the `in` operator on `str`). -/
def strContains (s sub : String) : Bool := decide (sub.toList <:+: s.toList)

/-- Python truthiness of an optional string: `None` and `""` are falsy. -/
def truthyOpt : Option String → Bool
  | none => false
  | some s => s != ""

/-- Python f-string rendering of an optional string: `None` prints as "None". -/
def strOfOpt : Option String → String
  | none => "None"
  | some s => s

/-- Python `str.rstrip("/")` (applied to the base URL at construction). -/
def rstripSlash (s : String) : String :=
  String.mk ((s.toList.reverse.dropWhile (fun c => c == '/')).reverse)

/-- A decoded JSON object, as a string-to-string association list. -/
abbrev JsonObj := List (String × String)

/-- Python `dict.get`. -/
def dictGet (d : JsonObj) (k : String) : Option String := List.lookup k d

/-- An HTTP response as seen by the client: the parts of `requests.Response`
that maestro_client.py reads.  `jsonBody = none` models a body that fails to
parse as JSON. -/
structure Resp where
  status : Nat
  contentType : String
  jsonBody : Option JsonObj
  textBody : String
  rawBody : String
  url : String
  headers : List (String × String)
deriving DecidableEq, Repr

/-- `requests.Response.ok`: true iff the status code is below 400 (the
documented semantics of the requests library). -/
def respOk (status : Nat) : Bool := status < 400

/-- `_safe_json`: parsed JSON body, empty dict on parse failure. -/
def safe_json (r : Resp) : JsonObj := r.jsonBody.getD []

/-- The decoded `data` field of a wrapped response. -/
inductive RespData
  | json (d : JsonObj)
  | text (t : String)
  | bytes (b : String)
deriving DecidableEq, Repr

/-- The `MaestroResponse` dataclass. -/
structure MaestroResponse where
  ok : Bool
  status_code : Nat
  url : String
  headers : List (String × String)
  data : RespData
  raw : Option Resp
deriving DecidableEq, Repr

/-- `_wrap_response`: build a MaestroResponse from an HTTP response.  The
Python `resp.text` access never raises in this model, so the `except` fallback
to `resp.content` is unreachable here. -/
def wrap_response (r : Resp) : MaestroResponse :=
  let data :=
    if strContains r.contentType "application/json" then RespData.json (safe_json r)
    else if strContains r.contentType "text/" then RespData.text r.textBody
    else RespData.bytes r.rawBody
  { ok := respOk r.status, status_code := r.status, url := r.url,
    headers := r.headers, data := data, raw := some r }

/-- The immutable client configuration set in `__init__`. -/
structure ClientConfig where
  base_url : String
  login_value : String
  key_value : String
  token_skew : ℤ
  org_header_name : String
deriving DecidableEq, Repr

/-- The client's mutable fields plus the state of its `threading.Lock`. -/
structure ClientState where
  token : Option String
  organization : Option String
  token_expires_at : ℤ
  lockHeld : Bool
deriving DecidableEq, Repr

/-- The state of a freshly constructed client. -/
def freshState : ClientState :=
  { token := none, organization := none, token_expires_at := 0, lockHeld := false }

/-- Client construction (`__init__`): strip trailing slashes off the base URL
and record the configuration. -/
def mkConfig (login k base : String) (skew : ℤ) (orgHeader : String) : ClientConfig :=
  { base_url := rstripSlash base, login_value := login, key_value := k,
    token_skew := skew, org_header_name := orgHeader }

/-- The network environment of one client call: the current time, the response
the login route would give, and the responses to successive dispatches. -/
structure Env where
  now : ℤ
  loginResp : Resp
  dispatchResps : List Resp
deriving DecidableEq, Repr

/-- Observable events of a client call.  A session write records whether the
client's lock was held at the moment of the write. -/
inductive Ev
  | loginCall
  | dispatch (url : String)
  | sessionWrite (lockHeld : Bool)
deriving DecidableEq, Repr

/-- The diagnostic payload of a raised `MaestroClientError`. -/
inductive AuthErr
  | httpError (status : Nat) (body : String)
  | malformed (data : JsonObj)
deriving DecidableEq, Repr

/-- Result of a client operation: normal return, a raised
`MaestroClientError`, or blocking forever on the non-reentrant lock. -/
inductive Outcome (α : Type)
  | ok (a : α)
  | authError (e : AuthErr)
  | deadlock
deriving DecidableEq, Repr

/-- Whether an outcome is a normal return. -/
def Outcome.isOk {α : Type} : Outcome α → Bool
  | Outcome.ok _ => true
  | _ => false

/-- Whether an outcome is a raised `MaestroClientError`. -/
def Outcome.isAuthErr {α : Type} : Outcome α → Bool
  | Outcome.authError _ => true
  | _ => false

/-- Whether an outcome is a deadlock. -/
def Outcome.isDeadlock {α : Type} : Outcome α → Bool
  | Outcome.deadlock => true
  | _ => false

/-- Release the lock (leaving a `with self._lock:` block). -/
def release (s : ClientState) : ClientState := { s with lockHeld := false }

/-- `_is_token_valid`: a token is cached (truthy) and the current time is
strictly before the expiry minus the skew. -/
def is_token_valid (cfg : ClientConfig) (s : ClientState) (now : ℤ) : Bool :=
  truthyOpt s.token && decide (now < s.token_expires_at - cfg.token_skew)

/-- The fixed login URL built in `authenticate`. -/
def loginUrl (cfg : ClientConfig) : String := cfg.base_url ++ "/api/v2/workspace/login"

/-- `authenticate`: POST the credentials to the login route; raise on a
non-ok status or on a missing/empty `accessToken` or `organizationLabel`;
otherwise take the lock, replace the session wholesale (expiry = now + 3600),
release, and return a successful `MaestroResponse`. -/
def authenticate (cfg : ClientConfig) (env : Env) (s : ClientState) :
    Outcome MaestroResponse × ClientState × List Ev :=
  let resp := env.loginResp
  if !(respOk resp.status) then
    (Outcome.authError (AuthErr.httpError resp.status resp.textBody), s, [Ev.loginCall])
  else
    let data := safe_json resp
    let token := dictGet data "accessToken"
    let organization := dictGet data "organizationLabel"
    if !(truthyOpt token) || !(truthyOpt organization) then
      (Outcome.authError (AuthErr.malformed data), s, [Ev.loginCall])
    else
      -- with self._lock: blocks forever if this thread already holds the lock
      if s.lockHeld then (Outcome.deadlock, s, [Ev.loginCall])
      else
        let s2 : ClientState :=
          { token := token, organization := organization,
            token_expires_at := env.now + 3600, lockHeld := true }
        (Outcome.ok
          { ok := true, status_code := resp.status, url := loginUrl cfg,
            headers := resp.headers, data := RespData.json data, raw := some resp },
         release s2, [Ev.loginCall, Ev.sessionWrite s2.lockHeld])

/-- The header dictionary `_auth_headers` builds from the session. -/
def baseHeaders (cfg : ClientConfig) (s : ClientState) : List (String × String) :=
  [("Authorization", "Bearer " ++ strOfOpt s.token), ("Content-Type", "application/json")]
    ++ (if truthyOpt s.organization then [(cfg.org_header_name, strOfOpt s.organization)] else [])

/-- `_auth_headers`: under the client's lock, check token validity, call
`authenticate` if invalid (which re-acquires the same non-reentrant lock), and
build the authorization headers.  A raised error releases the lock (the
`with` statement unwinds); a deadlock leaves it held forever. -/
def auth_headers (cfg : ClientConfig) (env : Env) (s : ClientState) :
    Outcome (List (String × String)) × ClientState × List Ev :=
  if s.lockHeld then (Outcome.deadlock, s, [])
  else
    if is_token_valid cfg { s with lockHeld := true } env.now then
      (Outcome.ok (baseHeaders cfg { s with lockHeld := true }),
       release { s with lockHeld := true }, [])
    else
      match authenticate cfg env { s with lockHeld := true } with
      | (Outcome.ok _, s2, tr) => (Outcome.ok (baseHeaders cfg s2), release s2, tr)
      | (Outcome.authError e, s2, tr) => (Outcome.authError e, release s2, tr)
      | (Outcome.deadlock, s2, tr) => (Outcome.deadlock, s2, tr)

/-- Python dict update used to merge caller headers over the auth headers
(caller-supplied keys win). -/
def dictUpdate (base extra : List (String × String)) : List (String × String) :=
  base.filter (fun kv => (List.lookup kv.1 extra).isNone) ++ extra

/-- A zero response used when the environment runs out of dispatch responses
(never reached by the concrete environments used below). -/
def defaultResp : Resp :=
  { status := 0, contentType := "", jsonBody := none, textBody := "", rawBody := "",
    url := "", headers := [] }

/-- The response the network gives to the i-th dispatch of a call. -/
def getResp (env : Env) (i : Nat) : Resp := env.dispatchResps.getD i defaultResp

/-- `_normalize_url`: absolute URLs pass through; otherwise a leading slash
and the `/api/v2` prefix are inserted when absent and the base URL is
prepended. -/
def normalize_url (cfg : ClientConfig) (path : String) : String :=
  if startswith path "http://" || startswith path "https://" then path
  else
    let path1 := if startswith path "/" then path else "/" ++ path
    let path2 := if startswith path1 "/api/v2" then path1 else "/api/v2" ++ path1
    cfg.base_url ++ path2

/-- `request_raw`: normalize the URL, build auth headers (possibly
re-authenticating), merge caller headers, dispatch; on a 401 with
`retry_on_401`, take the lock and force `authenticate` (which re-acquires the
same non-reentrant lock), rebuild headers and re-dispatch once; wrap the final
response. -/
def request_raw (cfg : ClientConfig) (env : Env) (s : ClientState)
    (path : String) (extraHeaders : List (String × String)) (retry_on_401 : Bool) :
    Outcome MaestroResponse × ClientState × List Ev :=
  let url := normalize_url cfg path
  match auth_headers cfg env s with
  | (Outcome.authError e, s1, tr) => (Outcome.authError e, s1, tr)
  | (Outcome.deadlock, s1, tr) => (Outcome.deadlock, s1, tr)
  | (Outcome.ok base, s1, tr1) =>
    let _hdrs := dictUpdate base extraHeaders
    let resp1 := getResp env 0
    let tr2 := tr1 ++ [Ev.dispatch url]
    if resp1.status == 401 && retry_on_401 then
      if s1.lockHeld then (Outcome.deadlock, s1, tr2)
      else
        match authenticate cfg env { s1 with lockHeld := true } with
        | (Outcome.authError e, s3, tr3) => (Outcome.authError e, release s3, tr2 ++ tr3)
        | (Outcome.deadlock, s3, tr3) => (Outcome.deadlock, s3, tr2 ++ tr3)
        | (Outcome.ok _, s3, tr3) =>
          let s4 := release s3
          match auth_headers cfg env s4 with
          | (Outcome.authError e, s5, tr4) => (Outcome.authError e, s5, tr2 ++ tr3 ++ tr4)
          | (Outcome.deadlock, s5, tr4) => (Outcome.deadlock, s5, tr2 ++ tr3 ++ tr4)
          | (Outcome.ok base2, s5, tr4) =>
            let _hdrs2 := dictUpdate base2 extraHeaders
            let resp2 := getResp env 1
            (Outcome.ok (wrap_response resp2), s5, tr2 ++ tr3 ++ tr4 ++ [Ev.dispatch url])
    else
      (Outcome.ok (wrap_response resp1), s1, tr2)

/-- `set_organization`: overwrite the cached organization under the lock. -/
def set_organization (s : ClientState) (org : String) :
    Outcome Unit × ClientState × List Ev :=
  if s.lockHeld then (Outcome.deadlock, s, [])
  else
    (Outcome.ok (),
     release { s with organization := some org, lockHeld := true },
     [Ev.sessionWrite true])

/-- One client operation of a sequential usage history. -/
inductive Op
  | auth (env : Env)
  | req (env : Env) (path : String) (extraHeaders : List (String × String)) (retry : Bool)
  | setOrg (org : String)
deriving DecidableEq, Repr

/-- Run one operation; the boolean is false when the thread deadlocked (so no
further operation can run). -/
def runOp (cfg : ClientConfig) (s : ClientState) : Op → Bool × ClientState × List Ev
  | Op.auth env =>
    match authenticate cfg env s with
    | (Outcome.deadlock, s1, tr) => (false, s1, tr)
    | (_, s1, tr) => (true, s1, tr)
  | Op.req env p h r =>
    match request_raw cfg env s p h r with
    | (Outcome.deadlock, s1, tr) => (false, s1, tr)
    | (_, s1, tr) => (true, s1, tr)
  | Op.setOrg o =>
    match set_organization s o with
    | (Outcome.deadlock, s1, tr) => (false, s1, tr)
    | (_, s1, tr) => (true, s1, tr)

/-- Run a sequence of operations, halting at a deadlock. -/
def runOps (cfg : ClientConfig) : ClientState → List Op → ClientState × List Ev
  | s, [] => (s, [])
  | s, op :: rest =>
    match runOp cfg s op with
    | (false, s1, tr) => (s1, tr)
    | (true, s1, tr) =>
      let r := runOps cfg s1 rest
      (r.1, tr ++ r.2)

/-- Recognize a login event. -/
def isLoginEv : Ev → Bool
  | Ev.loginCall => true
  | _ => false

/-- Recognize a dispatch event. -/
def isDispatchEv : Ev → Bool
  | Ev.dispatch _ => true
  | _ => false

/-- Number of login calls in a trace. -/
def countLogin (tr : List Ev) : Nat := (tr.filter isLoginEv).length

/-- Number of HTTP dispatches in a trace. -/
def countDispatch (tr : List Ev) : Nat := (tr.filter isDispatchEv).length

/-! ### Concrete fixtures -/

/-- A client built with the module's default base URL, skew and header name. -/
def defaultConfig : ClientConfig :=
  { base_url := "https://developers.botcity.dev", login_value := "user", key_value := "secret",
    token_skew := 10, org_header_name := "X-Organization" }

/-- A well-formed 200 login response. -/
def goodLoginResp : Resp :=
  { status := 200, contentType := "application/json",
    jsonBody := some [("accessToken", "abc"), ("organizationLabel", "org1")],
    textBody := "", rawBody := "", url := "", headers := [] }

/-- A generic 200 JSON response for dispatches. -/
def ok200Resp : Resp :=
  { status := 200, contentType := "application/json", jsonBody := some [],
    textBody := "", rawBody := "", url := "u", headers := [] }

/-- A 401 Unauthorized response. -/
def resp401 : Resp :=
  { status := 401, contentType := "application/json", jsonBody := some [],
    textBody := "", rawBody := "", url := "u", headers := [] }

/-- A 304 Not Modified response (ok per requests, not 2xx). -/
def resp304 : Resp :=
  { status := 304, contentType := "application/json", jsonBody := some [],
    textBody := "", rawBody := "", url := "u", headers := [] }

/-- A 300 login response carrying a well-formed token payload. -/
def resp300Good : Resp :=
  { status := 300, contentType := "application/json",
    jsonBody := some [("accessToken", "abc"), ("organizationLabel", "org1")],
    textBody := "", rawBody := "", url := "", headers := [] }

/-- Environment: login succeeds, one 200 dispatch available. -/
def envGoodLogin : Env := { now := 0, loginResp := goodLoginResp, dispatchResps := [ok200Resp] }

/-- Environment: login succeeds, the server answers 401 to every dispatch. -/
def envAll401 : Env := { now := 0, loginResp := goodLoginResp, dispatchResps := [resp401, resp401] }

/-- Environment whose login route answers 300 with a well-formed body. -/
def envLogin300 : Env := { now := 0, loginResp := resp300Good, dispatchResps := [] }

/-- A client state holding a still-valid cached session. -/
def validState : ClientState :=
  { token := some "tok", organization := some "org1", token_expires_at := 10000,
    lockHeld := false }

/-! ### Claim theorems -/

/-- C1: evaluation of the code at the failing input.  A request made while no
token is cached performs the login exchange once and then deadlocks:
`authenticate` blocks forever re-acquiring the non-reentrant lock already held
by `_auth_headers`, so the session is never written and the HTTP dispatch
never happens — contrary to the claim that exactly one authentication
completes before dispatch. -/
theorem requestRaw_missingToken_deadlocks_before_dispatch :
    (request_raw defaultConfig envGoodLogin freshState "/api/v2/task" [] true).1
        = Outcome.deadlock
    ∧ countLogin (request_raw defaultConfig envGoodLogin freshState "/api/v2/task" [] true).2.2 = 1
    ∧ countDispatch (request_raw defaultConfig envGoodLogin freshState "/api/v2/task" [] true).2.2 = 0 := by
  decide

/-- C2: evaluation of the code at the failing input.  With a valid cached
token, a dispatched request answered by 401 (and `retry_on_401 = true`) makes
`request_raw` take the lock and call `authenticate`, which deadlocks
re-acquiring that same non-reentrant lock: the request is dispatched only
once, no retry happens, and no 401 envelope is ever returned. -/
theorem requestRaw_401_retry_deadlocks :
    (request_raw defaultConfig envAll401 validState "/api/v2/task" [] true).1
        = Outcome.deadlock
    ∧ countDispatch (request_raw defaultConfig envAll401 validState "/api/v2/task" [] true).2.2 = 1
    ∧ countLogin (request_raw defaultConfig envAll401 validState "/api/v2/task" [] true).2.2 = 1 := by
  decide

/-- C3: evaluation of the code at the failing input.  A path already carrying
the secondary `/maestro/api` prefix (the one every logs/runners/credentials/…
facade passes) does not pass through unchanged: `_normalize_url` only checks
for the `/api/v2` prefix and therefore inserts it in front, yielding the
colliding URL `<base>/api/v2/maestro/api/logs`. -/
theorem normalizeUrl_mangles_maestro_prefix :
    normalize_url defaultConfig "/maestro/api/logs"
      = "https://developers.botcity.dev/api/v2/maestro/api/logs" := by
  decide

/-- C4 counterexample: a single `set_organization` call on a fresh client
leaves the organization cached while no token is cached, so token and
organization are not both-present-or-both-absent, and the mutation was done by
`set_organization`, not the Authenticator. -/
theorem setOrganization_breaks_session_pairing :
    (runOps defaultConfig freshState [Op.setOrg "org1"]).1.token.isSome = false
    ∧ (runOps defaultConfig freshState [Op.setOrg "org1"]).1.organization.isSome = true := by
  decide

/-- C5: evaluation of the code at the failing input.  `_wrap_response` copies
`requests.Response.ok`, which is true for every status below 400; a 304
response therefore yields an envelope with `ok = true` although 304 is not in
the 2xx range, contradicting the claim (and the dataclass's own docstring). -/
theorem wrapResponse_ok_true_at_304 :
    (wrap_response resp304).ok = true ∧ ¬(200 ≤ resp304.status ∧ resp304.status < 300) := by
  decide

/-- C6 counterexample: a login response with the non-2xx status 300 and a
well-formed body makes `authenticate` succeed (requests' `ok` is `status <
400`), while the claim says any non-2xx login status must fail with an
authentication error. -/
theorem authenticate_succeeds_on_non2xx_login :
    Outcome.isOk (authenticate defaultConfig envLogin300 freshState).1 = true
    ∧ ¬(200 ≤ envLogin300.loginResp.status ∧ envLogin300.loginResp.status < 300) := by
  decide

/-- C9 counterexample: for a path that lacks a leading slash because it is an
absolute URL, prefixing a slash changes the result: the absolute URL passes
through verbatim while the slash-prefixed copy gets the base URL and
`/api/v2` prepended. -/
theorem normalizeUrl_slash_law_fails_on_absolute_url :
    normalize_url defaultConfig "http://x"
      ≠ normalize_url defaultConfig ("/" ++ "http://x") := by
  decide

/-- C10 counterexample: `set_organization` stores its argument unchecked, so
calling it with the empty string leaves an empty organization cached,
contradicting the claim that a present organization is never empty. -/
theorem setOrganization_stores_empty_organization :
    (runOps defaultConfig freshState [Op.setOrg ""]).1.organization = some "" := by
  decide

/-! ### String helper lemmas -/

theorem strToList_append (a b : String) : (a ++ b).toList = a.toList ++ b.toList := by
  cases a
  cases b
  rfl

theorem startswith_append (s p x : String) (h : startswith s p = true) :
    startswith (s ++ x) p = true := by
  unfold startswith at h ⊢
  rw [strToList_append]
  rw [List.isPrefixOf_iff_prefix] at h ⊢
  exact h.trans (List.prefix_append _ _)

theorem slashCons_toList (P : String) : ("/" ++ P).toList = '/' :: P.toList := by
  rw [strToList_append]
  rfl

theorem slashCons_not_http (P : String) : startswith ("/" ++ P) "http://" = false := by
  unfold startswith
  rw [slashCons_toList]
  rfl

theorem slashCons_not_https (P : String) : startswith ("/" ++ P) "https://" = false := by
  unfold startswith
  rw [slashCons_toList]
  rfl

theorem slashCons_startswith_slash (P : String) : startswith ("/" ++ P) "/" = true := by
  unfold startswith
  rw [slashCons_toList]
  have h : "/".toList = ['/'] := rfl
  rw [h]
  simp [List.isPrefixOf]

/-! ### More claim theorems -/

/-- C8: the validity check.  With a nonempty token cached and expiry T + W,
`_is_token_valid` at a time `now ≥ T` is true exactly on the window
`T ≤ now < T + W − skew`, and with no token cached it is false at any expiry
value. -/
theorem isTokenValid_window (cfg : ClientConfig) (t : String) (o : Option String)
    (T W now : ℤ) (l l' : Bool) (e : ℤ) (ht : t ≠ "") (hT : T ≤ now) :
    (is_token_valid cfg
        { token := some t, organization := o, token_expires_at := T + W, lockHeld := l } now
          = true
      ↔ (T ≤ now ∧ now < T + W - cfg.token_skew))
    ∧ is_token_valid cfg
        { token := none, organization := o, token_expires_at := e, lockHeld := l' } now
          = false := by
  constructor
  · simp [is_token_valid, truthyOpt, ht, hT]
  · simp [is_token_valid, truthyOpt]

/-- C8 witness: the window theorem applied at skew 10, issue time 0, window
3600, current time 5. -/
theorem isTokenValid_window_witness :
    (is_token_valid defaultConfig
        { token := some "tok", organization := some "org1", token_expires_at := 0 + 3600,
          lockHeld := false } 5 = true
      ↔ ((0:ℤ) ≤ 5 ∧ (5:ℤ) < 0 + 3600 - defaultConfig.token_skew))
    ∧ is_token_valid defaultConfig
        { token := none, organization := some "org1", token_expires_at := 7, lockHeld := false } 5
          = false :=
  isTokenValid_window defaultConfig "tok" (some "org1") 0 3600 5 false false 7
    (by decide) (by decide)

/-- C6 amended: `authenticate` raises exactly when the login status is not ok
in the requests sense (status at least 400) or the decoded body's accessToken
or organizationLabel is absent or empty; whenever it raises, the cached
session is left completely unchanged; and the non-ok error carries the status
code and the response body. -/
theorem authenticate_failure_characterization (cfg : ClientConfig) (env : Env)
    (s : ClientState) :
    (Outcome.isAuthErr (authenticate cfg env s).1 = true
      ↔ (respOk env.loginResp.status = false
          ∨ truthyOpt (dictGet (safe_json env.loginResp) "accessToken") = false
          ∨ truthyOpt (dictGet (safe_json env.loginResp) "organizationLabel") = false))
    ∧ (Outcome.isAuthErr (authenticate cfg env s).1 = true → (authenticate cfg env s).2.1 = s)
    ∧ (respOk env.loginResp.status = false →
        (authenticate cfg env s).1
          = Outcome.authError (AuthErr.httpError env.loginResp.status env.loginResp.textBody)) := by
  unfold authenticate
  cases h1 : respOk env.loginResp.status with
  | false => simp [Outcome.isAuthErr, h1]
  | true =>
    cases h2 : truthyOpt (dictGet (safe_json env.loginResp) "accessToken") with
    | false => simp [Outcome.isAuthErr, h1, h2]
    | true =>
      cases h3 : truthyOpt (dictGet (safe_json env.loginResp) "organizationLabel") with
      | false => simp [Outcome.isAuthErr, h1, h2, h3]
      | true =>
        cases hL : s.lockHeld <;>
          simp [hL, Outcome.isAuthErr, h1, h2, h3]

/-- C7: a 200 login exchange whose decoded body carries a nonempty accessToken
and organizationLabel replaces the session wholesale: the token and
organization equal the body fields, the expiry is now + 3600, and the session
is immediately valid for any skew below the 3600-second window. -/
theorem authenticate_200_updates_session (cfg : ClientConfig) (env : Env) (s : ClientState)
    (tok org : String)
    (hst : env.loginResp.status = 200)
    (htok : dictGet (safe_json env.loginResp) "accessToken" = some tok)
    (horg : dictGet (safe_json env.loginResp) "organizationLabel" = some org)
    (htok' : tok ≠ "") (horg' : org ≠ "")
    (hlock : s.lockHeld = false)
    (hskew : cfg.token_skew < 3600) :
    Outcome.isOk (authenticate cfg env s).1 = true
    ∧ (authenticate cfg env s).2.1.token = some tok
    ∧ (authenticate cfg env s).2.1.organization = some org
    ∧ (authenticate cfg env s).2.1.token_expires_at = env.now + 3600
    ∧ is_token_valid cfg (authenticate cfg env s).2.1 env.now = true := by
  have h1 : respOk env.loginResp.status = true := by
    rw [hst]
    decide
  have h2 : truthyOpt (dictGet (safe_json env.loginResp) "accessToken") = true := by
    rw [htok]
    simp [truthyOpt, htok']
  have h3 : truthyOpt (dictGet (safe_json env.loginResp) "organizationLabel") = true := by
    rw [horg]
    simp [truthyOpt, horg']
  have hlt : env.now < env.now + 3600 - cfg.token_skew := by omega
  unfold authenticate
  simp [h1, h2, h3, htok, horg, htok', horg', hlock, release,
    is_token_valid, truthyOpt, Outcome.isOk, hlt]

/-- C7 witness: the success theorem applied to the concrete 200 login response
with token "abc" and organization "org1" on a fresh client. -/
theorem authenticate_200_updates_session_witness :
    Outcome.isOk (authenticate defaultConfig envGoodLogin freshState).1 = true
    ∧ (authenticate defaultConfig envGoodLogin freshState).2.1.token = some "abc"
    ∧ (authenticate defaultConfig envGoodLogin freshState).2.1.organization = some "org1"
    ∧ (authenticate defaultConfig envGoodLogin freshState).2.1.token_expires_at
        = envGoodLogin.now + 3600
    ∧ is_token_valid defaultConfig (authenticate defaultConfig envGoodLogin freshState).2.1
        envGoodLogin.now = true :=
  authenticate_200_updates_session defaultConfig envGoodLogin freshState "abc" "org1"
    (by decide) (by decide) (by decide) (by decide) (by decide) (by decide) (by decide)

/-- C9 amended: for a base URL that is itself an absolute http(s) URL (as the
Maestro base URLs are), `_normalize_url` is idempotent; and for every path
without a leading slash that is not itself an absolute http(s) URL, the
normalization of the path equals the normalization of the slash-prefixed
path. -/
theorem normalizeUrl_idempotent_and_slash (cfg : ClientConfig) (P : String)
    (hb : startswith cfg.base_url "http://" = true ∨ startswith cfg.base_url "https://" = true) :
    normalize_url cfg (normalize_url cfg P) = normalize_url cfg P
    ∧ (startswith P "/" = false → startswith P "http://" = false →
        startswith P "https://" = false →
        normalize_url cfg P = normalize_url cfg ("/" ++ P)) := by
  constructor
  · by_cases habs : (startswith P "http://" || startswith P "https://") = true
    · have hNP : normalize_url cfg P = P := by
        simp only [normalize_url, habs, if_true]
      rw [hNP]
      exact hNP
    · rw [Bool.not_eq_true] at habs
      obtain ⟨q, hq⟩ : ∃ q, normalize_url cfg P = cfg.base_url ++ q := by
        simp only [normalize_url, habs, Bool.false_eq_true, if_false]
        exact ⟨_, rfl⟩
      have hcond : (startswith (cfg.base_url ++ q) "http://"
          || startswith (cfg.base_url ++ q) "https://") = true := by
        rcases hb with h | h
        · simp [startswith_append _ _ _ h]
        · simp [startswith_append _ _ _ h]
      rw [hq]
      simp only [normalize_url, hcond, if_true]
  · intro h1 h2 h3
    simp only [normalize_url, h1, h2, h3, slashCons_not_http, slashCons_not_https,
      slashCons_startswith_slash, Bool.or_self, Bool.false_eq_true, if_false, if_true]

/-! ### Session evolution invariants

The only places the embedded client writes its session fields are
`authenticate` (token, organization and expiry together, under the lock) and
`set_organization` (organization alone, under the lock).  The relations below
describe how the token/organization pair may change across one operation and
are composed over operation sequences. -/

/-- Across one operation the session pair is either untouched or replaced
wholesale by a nonempty token and organization. -/
def SessEvolves (s r : ClientState) : Prop :=
  (r.token = s.token ∧ r.organization = s.organization)
  ∨ (∃ t o, t ≠ "" ∧ o ≠ "" ∧ r.token = some t ∧ r.organization = some o)

/-- Across one operation the token is either untouched or becomes some
nonempty string. -/
def TokEvolves (s r : ClientState) : Prop :=
  r.token = s.token ∨ ∃ t, t ≠ "" ∧ r.token = some t

/-- Every session write in the trace happened with the lock held. -/
def TraceLocked (tr : List Ev) : Prop := ∀ b, Ev.sessionWrite b ∈ tr → b = true

theorem sessEvolves_refl (s : ClientState) : SessEvolves s s := Or.inl ⟨rfl, rfl⟩

theorem sessEvolves_trans {s r u : ClientState} (h1 : SessEvolves s r)
    (h2 : SessEvolves r u) : SessEvolves s u := by
  rcases h2 with ⟨g1, g2⟩ | ⟨t, o, ht, ho, g1, g2⟩
  · rcases h1 with ⟨f1, f2⟩ | ⟨t, o, ht, ho, f1, f2⟩
    · exact Or.inl ⟨g1.trans f1, g2.trans f2⟩
    · exact Or.inr ⟨t, o, ht, ho, g1.trans f1, g2.trans f2⟩
  · exact Or.inr ⟨t, o, ht, ho, g1, g2⟩

theorem sessEvolves_tokEvolves {s r : ClientState} (h : SessEvolves s r) : TokEvolves s r := by
  rcases h with ⟨f1, _⟩ | ⟨t, _, ht, _, f1, _⟩
  · exact Or.inl f1
  · exact Or.inr ⟨t, ht, f1⟩

theorem tokEvolves_trans {s r u : ClientState} (h1 : TokEvolves s r)
    (h2 : TokEvolves r u) : TokEvolves s u := by
  rcases h2 with g1 | ⟨t, ht, g1⟩
  · rcases h1 with f1 | ⟨t, ht, f1⟩
    · exact Or.inl (g1.trans f1)
    · exact Or.inr ⟨t, ht, g1.trans f1⟩
  · exact Or.inr ⟨t, ht, g1⟩

theorem traceLocked_append {a b : List Ev} (ha : TraceLocked a) (hb : TraceLocked b) :
    TraceLocked (a ++ b) := by
  intro x hx
  rcases List.mem_append.mp hx with h | h
  · exact ha x h
  · exact hb x h

theorem traceLocked_login : TraceLocked [Ev.loginCall] := by
  intro b hb
  simp at hb

theorem traceLocked_login_write : TraceLocked [Ev.loginCall, Ev.sessionWrite true] := by
  intro b hb
  simp at hb
  exact hb

theorem traceLocked_write : TraceLocked [Ev.sessionWrite true] := by
  intro b hb
  simp at hb
  exact hb

theorem traceLocked_dispatch (u : String) : TraceLocked [Ev.dispatch u] := by
  intro b hb
  simp at hb

theorem traceLocked_nil : TraceLocked ([] : List Ev) := by
  intro b hb
  simp at hb

theorem authenticate_evolves (cfg : ClientConfig) (env : Env) (s : ClientState) :
    SessEvolves s (authenticate cfg env s).2.1 ∧ TraceLocked (authenticate cfg env s).2.2 := by
  simp only [authenticate]
  cases h1 : respOk env.loginResp.status with
  | false => exact ⟨sessEvolves_refl s, traceLocked_login⟩
  | true =>
    cases h2 : truthyOpt (dictGet (safe_json env.loginResp) "accessToken") with
    | false => exact ⟨sessEvolves_refl s, traceLocked_login⟩
    | true =>
      cases h3 : truthyOpt (dictGet (safe_json env.loginResp) "organizationLabel") with
      | false => exact ⟨sessEvolves_refl s, traceLocked_login⟩
      | true =>
        cases hL : s.lockHeld with
        | true => exact ⟨sessEvolves_refl s, traceLocked_login⟩
        | false =>
          obtain ⟨t, ht, hdt⟩ : ∃ t, t ≠ ""
              ∧ dictGet (safe_json env.loginResp) "accessToken" = some t := by
            cases hdg : dictGet (safe_json env.loginResp) "accessToken" with
            | none => rw [hdg] at h2; simp [truthyOpt] at h2
            | some t =>
              rw [hdg] at h2
              simp [truthyOpt] at h2
              exact ⟨t, h2, rfl⟩
          obtain ⟨o, ho, hdo⟩ : ∃ o, o ≠ ""
              ∧ dictGet (safe_json env.loginResp) "organizationLabel" = some o := by
            cases hdg : dictGet (safe_json env.loginResp) "organizationLabel" with
            | none => rw [hdg] at h3; simp [truthyOpt] at h3
            | some o =>
              rw [hdg] at h3
              simp [truthyOpt] at h3
              exact ⟨o, h3, rfl⟩
          exact ⟨Or.inr ⟨t, o, ht, ho, hdt, hdo⟩, traceLocked_login_write⟩

theorem set_organization_evolves (s : ClientState) (org : String) :
    TokEvolves s (set_organization s org).2.1 ∧ TraceLocked (set_organization s org).2.2 := by
  simp only [set_organization]
  cases hL : s.lockHeld with
  | true => exact ⟨Or.inl rfl, traceLocked_nil⟩
  | false => exact ⟨Or.inl rfl, traceLocked_write⟩

theorem auth_headers_evolves (cfg : ClientConfig) (env : Env) (s : ClientState) :
    SessEvolves s (auth_headers cfg env s).2.1 ∧ TraceLocked (auth_headers cfg env s).2.2 := by
  simp only [auth_headers]
  obtain ⟨hse, htr⟩ := authenticate_evolves cfg env { s with lockHeld := true }
  rcases hres : authenticate cfg env { s with lockHeld := true } with ⟨out, s2, tr⟩
  rw [hres] at hse htr
  cases hL : s.lockHeld with
  | true => exact ⟨sessEvolves_refl s, traceLocked_nil⟩
  | false =>
    cases hv : is_token_valid cfg { s with lockHeld := true } env.now with
    | true => exact ⟨sessEvolves_refl s, traceLocked_nil⟩
    | false =>
      cases out with
      | ok a => exact ⟨hse, htr⟩
      | authError e => exact ⟨hse, htr⟩
      | deadlock => exact ⟨hse, htr⟩

theorem request_raw_evolves (cfg : ClientConfig) (env : Env) (s : ClientState)
    (p : String) (eh : List (String × String)) (r : Bool) :
    SessEvolves s (request_raw cfg env s p eh r).2.1
    ∧ TraceLocked (request_raw cfg env s p eh r).2.2 := by
  simp only [request_raw]
  obtain ⟨hse1, htr1⟩ := auth_headers_evolves cfg env s
  rcases hah : auth_headers cfg env s with ⟨out1, s1, tr1⟩
  rw [hah] at hse1 htr1
  cases out1 with
  | authError e =>
    simp only [hah]
    exact ⟨hse1, htr1⟩
  | deadlock =>
    simp only [hah]
    exact ⟨hse1, htr1⟩
  | ok base =>
    simp only [hah]
    have htr2 : TraceLocked (tr1 ++ [Ev.dispatch (normalize_url cfg p)]) :=
      traceLocked_append htr1 (traceLocked_dispatch _)
    cases h401 : ((getResp env 0).status == 401 && r) with
    | false => exact ⟨hse1, htr2⟩
    | true =>
      cases hL1 : s1.lockHeld with
      | true => exact ⟨hse1, htr2⟩
      | false =>
        obtain ⟨hse2, htr3⟩ := authenticate_evolves cfg env { s1 with lockHeld := true }
        rcases hau : authenticate cfg env { s1 with lockHeld := true } with ⟨out2, s3, tr3⟩
        rw [hau] at hse2 htr3
        cases out2 with
        | authError e =>
          simp only [hau]
          exact ⟨sessEvolves_trans hse1 hse2, traceLocked_append htr2 htr3⟩
        | deadlock =>
          simp only [hau]
          exact ⟨sessEvolves_trans hse1 hse2, traceLocked_append htr2 htr3⟩
        | ok a =>
          simp only [hau]
          obtain ⟨hse4, htr4⟩ := auth_headers_evolves cfg env (release s3)
          rcases hah2 : auth_headers cfg env (release s3) with ⟨out3, s5, tr4⟩
          rw [hah2] at hse4 htr4
          cases out3 with
          | authError e =>
            simp only [hah2]
            exact ⟨sessEvolves_trans (sessEvolves_trans hse1 hse2) hse4,
              traceLocked_append (traceLocked_append htr2 htr3) htr4⟩
          | deadlock =>
            simp only [hah2]
            exact ⟨sessEvolves_trans (sessEvolves_trans hse1 hse2) hse4,
              traceLocked_append (traceLocked_append htr2 htr3) htr4⟩
          | ok base2 =>
            simp only [hah2]
            exact ⟨sessEvolves_trans (sessEvolves_trans hse1 hse2) hse4,
              traceLocked_append (traceLocked_append (traceLocked_append htr2 htr3) htr4)
                (traceLocked_dispatch _)⟩

/-- Recognize a `set_organization` operation. -/
def Op.isSetOrg : Op → Bool
  | Op.setOrg _ => true
  | _ => false

theorem runOp_evolves (cfg : ClientConfig) (s : ClientState) (op : Op) :
    (Op.isSetOrg op = false → SessEvolves s (runOp cfg s op).2.1)
    ∧ TokEvolves s (runOp cfg s op).2.1
    ∧ TraceLocked (runOp cfg s op).2.2 := by
  cases op with
  | auth env =>
    obtain ⟨h1, h2⟩ := authenticate_evolves cfg env s
    simp only [runOp]
    rcases ha : authenticate cfg env s with ⟨out, s1, tr⟩
    rw [ha] at h1 h2
    cases out with
    | ok a =>
      simp only [ha]
      exact ⟨fun _ => h1, sessEvolves_tokEvolves h1, h2⟩
    | authError e =>
      simp only [ha]
      exact ⟨fun _ => h1, sessEvolves_tokEvolves h1, h2⟩
    | deadlock =>
      simp only [ha]
      exact ⟨fun _ => h1, sessEvolves_tokEvolves h1, h2⟩
  | req env p eh r =>
    obtain ⟨h1, h2⟩ := request_raw_evolves cfg env s p eh r
    simp only [runOp]
    rcases ha : request_raw cfg env s p eh r with ⟨out, s1, tr⟩
    rw [ha] at h1 h2
    cases out with
    | ok a =>
      simp only [ha]
      exact ⟨fun _ => h1, sessEvolves_tokEvolves h1, h2⟩
    | authError e =>
      simp only [ha]
      exact ⟨fun _ => h1, sessEvolves_tokEvolves h1, h2⟩
    | deadlock =>
      simp only [ha]
      exact ⟨fun _ => h1, sessEvolves_tokEvolves h1, h2⟩
  | setOrg o =>
    obtain ⟨h1, h2⟩ := set_organization_evolves s o
    simp only [runOp]
    rcases ha : set_organization s o with ⟨out, s1, tr⟩
    rw [ha] at h1 h2
    cases out with
    | ok a =>
      simp only [ha]
      exact ⟨fun hc => by simp [Op.isSetOrg] at hc, h1, h2⟩
    | authError e =>
      simp only [ha]
      exact ⟨fun hc => by simp [Op.isSetOrg] at hc, h1, h2⟩
    | deadlock =>
      simp only [ha]
      exact ⟨fun hc => by simp [Op.isSetOrg] at hc, h1, h2⟩

theorem runOps_evolves (cfg : ClientConfig) (ops : List Op) (s : ClientState) :
    ((∀ op ∈ ops, Op.isSetOrg op = false) → SessEvolves s (runOps cfg s ops).1)
    ∧ TokEvolves s (runOps cfg s ops).1
    ∧ TraceLocked (runOps cfg s ops).2 := by
  induction ops generalizing s with
  | nil => exact ⟨fun _ => sessEvolves_refl s, Or.inl rfl, traceLocked_nil⟩
  | cons op rest ih =>
    obtain ⟨ho1, ho2, ho3⟩ := runOp_evolves cfg s op
    simp only [runOps]
    rcases hr : runOp cfg s op with ⟨cont, s1, tr⟩
    rw [hr] at ho1 ho2 ho3
    cases cont with
    | false =>
      simp only [hr]
      exact ⟨fun hc => ho1 (hc op (List.mem_cons_self _ _)), ho2, ho3⟩
    | true =>
      simp only [hr]
      obtain ⟨hi1, hi2, hi3⟩ := ih s1
      refine ⟨?_, tokEvolves_trans ho2 hi2, traceLocked_append ho3 hi3⟩
      intro hc
      exact sessEvolves_trans (ho1 (hc op (List.mem_cons_self _ _)))
        (hi1 (fun o' ho' => hc o' (List.mem_cons_of_mem _ ho')))

/-- C4 amended: after any sequence of client operations not involving
`set_organization` (construction, `authenticate`, `request_raw`) the cached
token and organization are both present or both absent, and every session
write in the history happened with the client's exclusive lock held (in the
embedding only `authenticate` and `set_organization` emit session writes). -/
theorem session_pairing_without_setOrganization (cfg : ClientConfig) (ops : List Op)
    (h : ∀ op ∈ ops, Op.isSetOrg op = false) :
    ((runOps cfg freshState ops).1.token.isSome
        ↔ (runOps cfg freshState ops).1.organization.isSome)
    ∧ TraceLocked (runOps cfg freshState ops).2 := by
  obtain ⟨h1, _, h3⟩ := runOps_evolves cfg ops freshState
  refine ⟨?_, h3⟩
  rcases h1 h with ⟨f1, f2⟩ | ⟨t, o, _, _, f1, f2⟩
  · rw [f1, f2]
    simp [freshState]
  · rw [f1, f2]
    simp

/-- C4 witness: the amended pairing invariant applied to the one-operation
history consisting of a successful authentication. -/
theorem session_pairing_without_setOrganization_witness :
    ((runOps defaultConfig freshState [Op.auth envGoodLogin]).1.token.isSome
        ↔ (runOps defaultConfig freshState [Op.auth envGoodLogin]).1.organization.isSome)
    ∧ TraceLocked (runOps defaultConfig freshState [Op.auth envGoodLogin]).2 :=
  session_pairing_without_setOrganization defaultConfig [Op.auth envGoodLogin] (by decide)

/-- An environment whose 2xx login response carries an empty accessToken. -/
def envEmptyToken : Env :=
  { now := 0,
    loginResp :=
      { status := 200, contentType := "application/json",
        jsonBody := some [("accessToken", ""), ("organizationLabel", "org1")],
        textBody := "", rawBody := "", url := "", headers := [] },
    dispatchResps := [] }

/-- C10 amended: a 2xx login response whose accessToken or organizationLabel
is the empty string is rejected exactly like an absent field — `authenticate`
raises and leaves the session unchanged — and consequently the cached token,
when present, is never the empty string after any operation sequence; the
organization, however, can be made empty by `set_organization`. -/
theorem authenticate_empty_fields_rejected (cfg : ClientConfig) (env : Env)
    (s : ClientState) (ops : List Op)
    (h2xx : 200 ≤ env.loginResp.status ∧ env.loginResp.status < 300)
    (hempty : dictGet (safe_json env.loginResp) "accessToken" = some ""
        ∨ dictGet (safe_json env.loginResp) "organizationLabel" = some "") :
    Outcome.isAuthErr (authenticate cfg env s).1 = true
    ∧ (authenticate cfg env s).2.1 = s
    ∧ (runOps cfg freshState ops).1.token ≠ some "" := by
  have hok : respOk env.loginResp.status = true := by
    simp only [respOk]
    simp only [decide_eq_true_eq]
    omega
  have hbad : truthyOpt (dictGet (safe_json env.loginResp) "accessToken") = false
      ∨ truthyOpt (dictGet (safe_json env.loginResp) "organizationLabel") = false := by
    rcases hempty with h | h
    · exact Or.inl (by rw [h]; simp [truthyOpt])
    · exact Or.inr (by rw [h]; simp [truthyOpt])
  have herr : Outcome.isAuthErr (authenticate cfg env s).1 = true
      ∧ (authenticate cfg env s).2.1 = s := by
    unfold authenticate
    rcases hbad with h | h
    · simp [hok, h, Outcome.isAuthErr]
    · simp [hok, h, Outcome.isAuthErr]
  refine ⟨herr.1, herr.2, ?_⟩
  obtain ⟨_, h2, _⟩ := runOps_evolves cfg ops freshState
  rcases h2 with f | ⟨t, ht, f⟩
  · rw [f]
    simp [freshState]
  · rw [f]
    simp [ht]

/-- C10 witness: the empty-field rejection applied to a concrete 200 login
response with an empty accessToken, followed by a `set_organization` call. -/
theorem authenticate_empty_fields_rejected_witness :
    Outcome.isAuthErr (authenticate defaultConfig envEmptyToken freshState).1 = true
    ∧ (authenticate defaultConfig envEmptyToken freshState).2.1 = freshState
    ∧ (runOps defaultConfig freshState [Op.setOrg "x"]).1.token ≠ some "" :=
  authenticate_empty_fields_rejected defaultConfig envEmptyToken freshState [Op.setOrg "x"]
    (by decide) (Or.inl (by decide))

/-- C9 witness: idempotence and the slash law applied to the default base URL
and the plain relative path "task". -/
theorem normalizeUrl_idempotent_and_slash_witness :
    normalize_url defaultConfig (normalize_url defaultConfig "task")
        = normalize_url defaultConfig "task"
    ∧ (startswith "task" "/" = false → startswith "task" "http://" = false →
        startswith "task" "https://" = false →
        normalize_url defaultConfig "task" = normalize_url defaultConfig ("/" ++ "task")) :=
  normalizeUrl_idempotent_and_slash defaultConfig "task" (Or.inr (by decide))

end MaestroSpec
